import Mathlib

/-!
Shallow embedding of the Jira-Odoo-Connector sync pipeline
(src/main.py, src/tempo.py, src/jira.py, src/odoo.py, src/email_notifier.py).

Modelling conventions:
* Python dict fields that may be absent or None are `Option`; Python
  truthiness of strings/ints is modelled explicitly (`pyTruthyOpt`,
  `pyTruthyInt`: empty string, None and 0 are falsy).
* The three remote services are oracles collected in `Env`; the global
  mutable `email_notifier` instance and the `OdooClient` singleton are
  threaded as explicit state (`NotifierState`, `SyncState`).
* Python exceptions are `Except PyExc`; a Python `try`/`except` is a
  wrapper matching on the body's result.  Since the notifier is a global
  object, effectful functions return `Except PyExc α × State` so that
  state written before a raise survives the raise, as in Python.
* Machine floats are modelled by exact rationals; Python's
  `round(x, 2)` is round-half-to-even at two decimal places.
* Timestamps (`datetime.now()`) are elided from ErrorRecord; the
  ordered error list and severities are kept.
-/

namespace JiraOdoo

/-- Python truthiness of an optional string: None and "" are falsy. -/
def pyTruthyOpt : Option String → Bool
  | none => false
  | some s => s != ""

/-- Python truthiness of an optional integer: None and 0 are falsy. -/
def pyTruthyInt : Option Int → Bool
  | none => false
  | some v => v != 0

/-- The Python exception classes that the connector's handlers distinguish.
`transportError` stands for the group (ProtocolError, Fault, socket.error,
ConnectionError) caught together in src/odoo.py. -/
inductive PyExc
  | attributeError
  | typeError
  | connectionError
  | timeoutError
  | requestError
  | transportError
  | otherError
deriving DecidableEq, Repr

/-- Decidable equality of Python results (`Except` carries no instance). -/
instance exceptDecEq {ε α : Type} [DecidableEq ε] [DecidableEq α] :
    DecidableEq (Except ε α) := fun a b =>
  match a, b with
  | .ok x, .ok y => if h : x = y then .isTrue (by rw [h]) else .isFalse (by simp [h])
  | .error x, .error y => if h : x = y then .isTrue (by rw [h]) else .isFalse (by simp [h])
  | .ok _, .error _ => .isFalse (by simp)
  | .error _, .ok _ => .isFalse (by simp)

/-! ## Error notifier (src/email_notifier.py)

`EmailNotifier.collect_error` builds a dict
`{timestamp, error_type, error_message, context, severity}` and appends it
to `self.sync_errors` (email_notifier.py lines 43-57); the timestamp is
real time and is elided here. -/

structure ErrorRecord where
  error_type : String
  error_message : String
  context : String
  severity : String
deriving DecidableEq, Repr

/-- A record of one email the notifier actually sent (ghost log used to
state which sends happened; the body text itself is not modelled). -/
structure SentEmail where
  subject : String
  errors : List ErrorRecord
deriving DecidableEq, Repr

/-- The mutable fields of the global `email_notifier` instance. -/
structure NotifierState where
  enabled : Bool
  from_email : Option String
  password : Option String
  to_email : Option String
  sync_errors : List ErrorRecord
  emailsSent : List SentEmail
deriving DecidableEq, Repr

/-- email_notifier.py lines 31-35: enabled and all of from/password/to set. -/
def is_configured (n : NotifierState) : Bool :=
  n.enabled && pyTruthyOpt n.from_email && pyTruthyOpt n.password && pyTruthyOpt n.to_email

/-- email_notifier.py lines 37-41: clear collected errors. -/
def start_sync_session (n : NotifierState) : NotifierState :=
  { n with sync_errors := [] }

/-- email_notifier.py lines 43-57: append an ErrorRecord when configured,
otherwise do nothing. -/
def collect_error (n : NotifierState)
    (error_type error_message context severity : String) : NotifierState :=
  if is_configured n then
    { n with sync_errors := n.sync_errors ++
        [{ error_type := error_type, error_message := error_message,
           context := context, severity := severity }] }
  else n

/-- email_notifier.py lines 59-180: the consolidated summary.  Returns
unchanged when not configured or when no errors were collected; otherwise
sends exactly one email and clears the collected list (the clear happens
whether or not the SMTP transport succeeded, lines 179-180). -/
def send_sync_summary_email (n : NotifierState) : NotifierState :=
  if is_configured n then
    if n.sync_errors = [] then n
    else
      { n with
        emailsSent := n.emailsSent ++ [{ subject := "Sync Errors", errors := n.sync_errors }],
        sync_errors := [] }
  else n

/-- The methods the EmailNotifier class actually defines
(src/email_notifier.py lines 14-273). -/
def emailNotifierMethods : List String :=
  ["is_configured", "start_sync_session", "collect_error",
   "send_sync_summary_email", "send_critical_error_immediate",
   "load_error_state", "save_error_state", "clear_error_state", "send_email"]

/-- The call `email_notifier.send_error_email(...)` made by src/tempo.py and
src/jira.py.  EmailNotifier defines no method of that name (see
`emailNotifierMethods`), so Python's attribute lookup raises AttributeError
before any state changes. -/
def send_error_email (n : NotifierState) : Except PyExc Unit × NotifierState :=
  if "send_error_email" ∈ emailNotifierMethods then (.ok (), n)
  else (.error .attributeError, n)

/-! ## Seconds-to-hours conversion (src/main.py lines 16-18)

`convert_seconds_to_hours(seconds)` is `round(seconds / 3600, 2)`:
true division then Python's bankers rounding to two decimal places. -/

/-- Round `num / den` (for `den > 0`) to the nearest integer, ties going to
the even integer — the rounding Python's `round` uses. -/
def roundHalfToEvenDiv (num den : ℤ) : ℤ :=
  let q := Int.fdiv num den
  let r := num - q * den
  if 2 * r < den then q
  else if den < 2 * r then q + 1
  else if q % 2 = 0 then q else q + 1

/-- src/main.py lines 16-18: `return round(seconds / 3600, 2)`.
Over exact arithmetic, `round(s / 3600, 2) = roundHalfToEven(100 * s / 3600) / 100`. -/
def convert_seconds_to_hours (seconds : ℤ) : ℚ :=
  ((roundHalfToEvenDiv (seconds * 100) 3600 : ℤ) : ℚ) / 100

/-! ## Python string primitives

Structural models of the Python string operations the connector uses
(`sep in s`, `s.split(sep)`, `s.replace(old, new)`, `int(s)`), over
character lists so that concrete runs reduce inside the kernel. -/

/-- Worker for `pySplit`: splits at each leftmost occurrence of `sep`,
non-overlapping, exactly like Python's `str.split` with a nonempty
separator.  `fuel` only drives structural recursion; `chars.length + 1`
is always enough since every step consumes at least one character. -/
def splitOnFuel (sep : List Char) : ℕ → List Char → List Char → List (List Char)
  | 0, chars, acc => [acc.reverse ++ chars]
  | _ + 1, [], acc => [acc.reverse]
  | fuel + 1, c :: rest, acc =>
    if sep.isPrefixOf (c :: rest) then
      acc.reverse :: splitOnFuel sep fuel (List.drop sep.length (c :: rest)) []
    else
      splitOnFuel sep fuel rest (c :: acc)

/-- Python `s.split(sep)` for a nonempty separator. -/
def pySplit (s sep : String) : List String :=
  (splitOnFuel sep.data (s.data.length + 1) s.data []).map String.mk

/-- Python `sep in s`: at least one occurrence, i.e. the split has a second
piece. -/
def pyContains (s sep : String) : Bool :=
  2 ≤ (pySplit s sep).length

/-- Python `s.replace(old, new)`: replace every non-overlapping leftmost
occurrence, equivalently split on `old` and join with `new`. -/
def pyReplace (s old new : String) : String :=
  String.intercalate new (pySplit s old)

/-- Digits of a decimal literal, most significant first. -/
def pyDigitsToNat : List Char → ℕ → Option ℕ
  | [], acc => some acc
  | c :: rest, acc =>
    if '0' ≤ c ∧ c ≤ '9' then pyDigitsToNat rest (acc * 10 + (c.toNat - '0'.toNat))
    else none

/-- Python `int(s)` on a string: optional sign then a nonempty digit run,
`None` standing for the ValueError `int` raises otherwise.  (Python also
accepts surrounding whitespace and digit-group underscores; those do not
occur in the URLs this parser sees and are not modelled.) -/
def pyToInt : String → Option ℤ
  | ⟨[]⟩ => none
  | ⟨'-' :: rest⟩ =>
    if rest = [] then none else (pyDigitsToNat rest 0).map (fun v => -(v : ℤ))
  | ⟨'+' :: rest⟩ =>
    if rest = [] then none else (pyDigitsToNat rest 0).map (fun v => (v : ℤ))
  | ⟨l⟩ => (pyDigitsToNat l 0).map (fun v => (v : ℤ))

/-! ## Target-reference parsing (src/jira.py lines 142-175) -/

/-- src/jira.py `extract_odoo_task_id_from_url`: falsy url gives
`(None, None)`; otherwise the text between the first `id=` and the next `&`
is fed to `int()` (a ValueError is caught and gives `(None, None)`); the
model type is the text between the first `model=` and the next `&` with
`%2E` decoded to `.`, defaulting to `project.task` when `model=` is absent. -/
def extract_odoo_task_id_from_url (odoo_url : String) : Option ℤ × Option String :=
  if odoo_url = "" then (none, none)
  else
    let idParts := pySplit odoo_url "id="
    if 2 ≤ idParts.length then
      match pyToInt ((pySplit (idParts[1]?.getD "") "&").headD "") with
      | none => (none, none)
      | some task_id =>
        let modelParts := pySplit odoo_url "model="
        let model_type :=
          if 2 ≤ modelParts.length then
            pyReplace ((pySplit (modelParts[1]?.getD "") "&").headD "") "%2E" "."
          else "project.task"
        (some task_id, some model_type)
    else (none, none)

/-! ## Data model and remote-service oracles -/

/-- One Tempo work-log record as the orchestrator reads it:
`tempoWorklogId`, `issue.key`, `timeSpentSeconds`, `startDate`,
`author.displayName` (src/main.py lines 28-98). -/
structure Worklog where
  tempoWorklogId : Option String
  issueKey : Option String
  timeSpentSeconds : ℤ
  startDate : String
  authorName : String
deriving DecidableEq, Repr

/-- The JIRA issue fields the resolver reads (src/jira.py lines 44-66):
`summary`, the linking custom field `customfield_10134` (empty string when
absent), the `parent` reference and the fallback `customfield_10014`
(each modelled as the parent's key). -/
structure IssueFields where
  summary : Option String
  odoo_url : String
  parent : Option String
  customfield_10014 : Option String
deriving DecidableEq, Repr

/-- What one `requests.get` of an issue produces: an HTTP response with a
status code and parsed fields, or one of the exception classes the code
catches. -/
inductive FetchOutcome
  | resp (status : ℕ) (fields : IssueFields)
  | connError
  | timeoutError
  | reqError
  | otherError
deriving DecidableEq, Repr

/-- The dict `get_issue_with_odoo_url` returns (src/jira.py lines 54-83). -/
structure IssueData where
  key : String
  odoo_url : String
  summary : String
  task_source : String
  epic_key : Option String
  description : String
deriving DecidableEq, Repr

/-- The dict `get_epic_odoo_url` returns (src/jira.py lines 130-134). -/
structure EpicData where
  key : String
  odoo_url : String
  summary : String
deriving DecidableEq, Repr

/-- What the one Tempo worklogs request produces (src/tempo.py lines 41-55). -/
inductive TempoOutcome
  | resp (status : ℕ) (results : List Worklog)
  | connError
  | timeoutError
  | reqError
  | otherExc
deriving DecidableEq, Repr

/-- Behaviour of the JIRA lookups `enrich_worklogs_with_issue_key` performs
when the record carries no issue key (src/tempo.py lines 89-120). -/
inductive EnrichLookup
  | okKey (key displayName : String)
  | noIssueId
  | connError
  | reqError
  | otherExc
deriving DecidableEq, Repr

/-- Behaviour of `OdooClient.connect` when not already connected
(src/odoo.py lines 38-62). -/
inductive ConnectOutcome
  | ok
  | authFail
  | transportExc
  | otherExc
deriving DecidableEq, Repr

/-- Behaviour of the remote `account.analytic.line` search performed by the
duplicate check: it either answers (the answer itself is read off the
modelled line store) or raises (src/odoo.py lines 228-240). -/
inductive SearchBehavior
  | normal
  | raiseTransport
  | raiseOther
deriving DecidableEq, Repr

/-- Behaviour of the `project.task` read inside `create_timesheet_entry`
(src/odoo.py lines 166-183). -/
inductive TaskReadOutcome
  | found (project_id : Option ℤ)
  | notFound
  | raiseTransport
  | raiseOther
deriving DecidableEq, Repr

/-- Behaviour of the `account.analytic.line` create call
(src/odoo.py lines 205-221). -/
inductive CreateBehavior
  | ok
  | raiseTransport
  | raisePerm
  | raiseOther
deriving DecidableEq, Repr

/-- The three remote services as deterministic oracles.
`resolveEmployee` abstracts `OdooClient.resolve_employee_id` (its internal
account-id/email/name search priority and cache are not the subject of any
claim). -/
structure Env where
  tempoOutcome : TempoOutcome
  fetchIssue : String → FetchOutcome
  enrichLookup : Worklog → EnrichLookup
  connectOutcome : ConnectOutcome
  duplicateSearch : String → SearchBehavior
  resolveEmployee : Option String → Option ℤ
  taskRead : ℤ → TaskReadOutcome
  createBehavior : CreateBehavior
  todayStr : String

/-- One timesheet line as `create_timesheet_entry` builds it
(src/odoo.py lines 193-203). -/
structure CreatedLine where
  task_id : ℤ
  project_id : Option ℤ
  name : String
  unit_amount : ℚ
  date : String
  employee_id : ℤ
  x_jira_worklog_id : Option String
deriving DecidableEq, Repr

/-- Process state: the notifier singleton, the `OdooClient` singleton's
connection flags, and the target database's timesheet lines
(`existingKeys` is the set of `x_jira_worklog_id` values present remotely,
which the duplicate-check search consults; `lines`/`nextId` model the
created lines and the ids Odoo assigns). -/
structure SyncState where
  notifier : NotifierState
  connected : Bool
  models_set : Bool
  existingKeys : List String
  lines : List CreatedLine
  nextId : ℤ
deriving DecidableEq, Repr

/-! ## Tempo client (src/tempo.py) -/

/-- Shared shape of src/tempo.py's exception handlers: every one of them
(ConnectionError, Timeout, RequestException, Exception) first calls the
nonexistent `email_notifier.send_error_email`, which raises AttributeError
out of the handler, so the `return []` below it is never reached. -/
def sendThenEmptyList (n : NotifierState) : Except PyExc (List Worklog) × NotifierState :=
  match send_error_email n with
  | (.error e, n1) => (.error e, n1)
  | (.ok _, n1) => (.ok [], n1)

/-- The `try` body of `get_tempo_worklogs` (src/tempo.py lines 24-55):
a 401 response attempts `send_error_email` (line 46); any other 4xx/5xx
raises through `raise_for_status`; a good response yields the results. -/
def tempoRespCase (code : ℕ) (results : List Worklog) (n : NotifierState) :
    Except PyExc (List Worklog) × NotifierState :=
  if code = 401 then
    match send_error_email n with
    | (.error e, n1) => (.error e, n1)
    | (.ok _, n1) => (.ok [], n1)
  else if 400 ≤ code then (.error .requestError, n)
  else (.ok results, n)

/-- src/tempo.py `get_tempo_worklogs`, handlers included. -/
def get_tempo_worklogs (o : TempoOutcome) (n : NotifierState) :
    Except PyExc (List Worklog) × NotifierState :=
  let body : Except PyExc (List Worklog) × NotifierState :=
    match o with
    | .resp code results => tempoRespCase code results n
    | .connError => (.error .connectionError, n)
    | .timeoutError => (.error .timeoutError, n)
    | .reqError => (.error .requestError, n)
    | .otherExc => (.error .otherError, n)
  match body with
  | (.ok r, n1) => (.ok r, n1)
  | (.error _, n1) => sendThenEmptyList n1

/-- src/tempo.py `enrich_worklogs_with_issue_key` (lines 76-134): a record
whose issue already carries a key is returned unchanged; otherwise the JIRA
lookups run, and the ConnectionError/RequestException handlers attempt
`send_error_email` (raising AttributeError), while the generic handler
drops the record. -/
def enrich_worklogs_with_issue_key (env : Env) (wl : Worklog) (n : NotifierState) :
    Except PyExc (Option Worklog) × NotifierState :=
  if pyTruthyOpt wl.issueKey then (.ok (some wl), n)
  else
    match env.enrichLookup wl with
    | .okKey k d => (.ok (some { wl with issueKey := some k, authorName := d }), n)
    | .noIssueId => (.ok none, n)
    | .connError =>
      match send_error_email n with
      | (.error e, n1) => (.error e, n1)
      | (.ok _, n1) => (.ok none, n1)
    | .reqError =>
      match send_error_email n with
      | (.error e, n1) => (.error e, n1)
      | (.ok _, n1) => (.ok none, n1)
    | .otherExc => (.ok none, n)

/-! ## Issue resolver (src/jira.py) -/

/-- src/jira.py lines 63-66: `parent_epic = fields.get('parent')` falling
back to `fields.get('customfield_10014')` when the former is falsy. -/
def parent_epic_of (fields : IssueFields) : Option String :=
  if pyTruthyOpt fields.parent then fields.parent else fields.customfield_10014

/-- src/jira.py `get_epic_odoo_url` (lines 111-140): fetch the epic,
`raise_for_status`, and return its data only when the linking field is
truthy; every exception is caught by the function's own generic handler
and yields None. -/
def get_epic_odoo_url (env : Env) (epic_key : String) : Option EpicData :=
  match env.fetchIssue epic_key with
  | .resp code fields =>
    if 400 ≤ code then none
    else if fields.odoo_url ≠ "" then
      some { key := epic_key, odoo_url := fields.odoo_url,
             summary := fields.summary.getD "" }
    else none
  | _ => none

/-- The response branch of `get_issue_with_odoo_url`'s `try` body
(src/jira.py lines 29-86): 401 attempts the nonexistent `send_error_email`
(AttributeError); 404 returns None with no notifier activity; other 4xx/5xx
raise through `raise_for_status`; otherwise the direct linking field wins,
and only when it is empty is the parent consulted, the returned summary
always being the original issue's. -/
def issueRespCase (env : Env) (issue_key : String) (code : ℕ) (fields : IssueFields)
    (n : NotifierState) : Except PyExc (Option IssueData) × NotifierState :=
  if code = 401 then
    match send_error_email n with
    | (.error e, n1) => (.error e, n1)
    | (.ok _, n1) => (.ok none, n1)
  else if code = 404 then (.ok none, n)
  else if 400 ≤ code then (.error .requestError, n)
  else
    let issue_title := fields.summary.getD ("Work on " ++ issue_key)
    if fields.odoo_url ≠ "" then
      (.ok (some { key := issue_key, odoo_url := fields.odoo_url,
                   summary := issue_title, task_source := "direct",
                   epic_key := none, description := issue_title }), n)
    else
      match parent_epic_of fields with
      | some pk =>
        if pk ≠ "" then
          match get_epic_odoo_url env pk with
          | some epic_data =>
            if epic_data.odoo_url ≠ "" then
              (.ok (some { key := issue_key, odoo_url := epic_data.odoo_url,
                           summary := issue_title, task_source := "epic",
                           epic_key := some pk, description := issue_title }), n)
            else (.ok none, n)
          | none => (.ok none, n)
        else (.ok none, n)
      | none => (.ok none, n)

/-- The ConnectionError/Timeout/RequestException handlers of
`get_issue_with_odoo_url` (src/jira.py lines 88-105): each calls the
nonexistent `send_error_email`, so AttributeError escapes the handler. -/
def sendThenNoIssue (n : NotifierState) : Except PyExc (Option IssueData) × NotifierState :=
  match send_error_email n with
  | (.error e, n1) => (.error e, n1)
  | (.ok _, n1) => (.ok none, n1)

/-- src/jira.py `get_issue_with_odoo_url` (lines 23-109), handlers included;
the final `except Exception` (lines 106-109) swallows anything else —
including the AttributeError the 401 branch raised inside the `try` body —
and returns None without touching the notifier. -/
def get_issue_with_odoo_url (env : Env) (issue_key : String) (n : NotifierState) :
    Except PyExc (Option IssueData) × NotifierState :=
  let body : Except PyExc (Option IssueData) × NotifierState :=
    match env.fetchIssue issue_key with
    | .resp code fields => issueRespCase env issue_key code fields n
    | .connError => (.error .connectionError, n)
    | .timeoutError => (.error .timeoutError, n)
    | .reqError => (.error .requestError, n)
    | .otherError => (.error .otherError, n)
  match body with
  | (.ok r, n1) => (.ok r, n1)
  | (.error .connectionError, n1) => sendThenNoIssue n1
  | (.error .timeoutError, n1) => sendThenNoIssue n1
  | (.error .requestError, n1) => sendThenNoIssue n1
  | (.error _, n1) => (.ok none, n1)

/-! ## Target client (src/odoo.py) -/

/-- src/odoo.py `OdooClient.connect` (lines 38-62): memoized on success;
on a fresh attempt the two ServerProxy objects are assigned (so
`self.models` becomes set) before `authenticate` runs; a falsy uid or an
exception collects a critical error and returns False. -/
def connect (env : Env) (st : SyncState) : Bool × SyncState :=
  if st.connected then (true, st)
  else
    match env.connectOutcome with
    | .ok => (true, { st with connected := true, models_set := true })
    | .authFail =>
      let n1 := collect_error st.notifier "Exception"
        "Odoo authentication failed - invalid credentials"
        "Odoo Authentication Failure" "critical"
      (false, { st with models_set := true, notifier := n1 })
    | .transportExc =>
      let n1 := collect_error st.notifier "ProtocolError"
        "transport failure" "Odoo Connection/Protocol Failure" "critical"
      (false, { st with models_set := true, notifier := n1 })
    | .otherExc =>
      let n1 := collect_error st.notifier "Exception"
        "unexpected failure" "Odoo System Error" "critical"
      (false, { st with models_set := true, notifier := n1 })

/-- The `try` body of the duplicate check: the remote search over
`account.analytic.line` rows with the given `x_jira_worklog_id`, which
either answers from the line store or raises (src/odoo.py lines 228-235). -/
def duplicate_search_try (env : Env) (key : String) (st : SyncState) :
    Except PyExc Bool × SyncState :=
  match env.duplicateSearch key with
  | .normal => (.ok (st.existingKeys.contains key), st)
  | .raiseTransport => (.error .transportError, st)
  | .raiseOther => (.error .otherError, st)

/-- src/odoo.py `check_existing_worklogs_by_worklog_id` (lines 224-240):
False for a falsy key, a failed connect or missing models; the transport
handler collects a normal-severity error and returns False; the generic
handler returns False silently.  The function itself never raises. -/
def check_existing_worklogs_by_worklog_id (env : Env)
    (tempo_worklog_id : Option String) (st : SyncState) : Bool × SyncState :=
  if pyTruthyOpt tempo_worklog_id then
    match connect env st with
    | (false, st1) => (false, st1)
    | (true, st1) =>
      if st1.models_set then
        match duplicate_search_try env (tempo_worklog_id.getD "") st1 with
        | (.ok b, st2) => (b, st2)
        | (.error .transportError, st2) =>
          let n2 := collect_error st2.notifier "ProtocolError"
            "search failure" "Odoo error during duplicate check" "normal"
          (false, { st2 with notifier := n2 })
        | (.error _, st2) => (false, st2)
      else (false, st1)
  else (false, st)

/-- src/odoo.py `OdooClient.create_timesheet_entry` (lines 122-221), as the
method behaves when invoked with a well-formed argument list: connect and
models guard, the non-`project.task` notice, date defaulting, employee
resolution with Python truthiness (`employee_id or resolve(...)`, then
`if not emp_id`), the task read, and the create call which stores the line
(with the idempotency key attribute only when the key is truthy) and
returns the new integer id.  Note: src/main.py line 102 never reaches this
method — see `create_call_from_main`. -/
def create_timesheet_entry (env : Env) (task_id : ℤ) (hours : ℚ)
    (description : String) (work_date : Option String)
    (tempo_worklog_id : Option String) (model_type : String)
    (jira_author : Option String) (employee_id : Option ℤ) (st : SyncState) :
    Option ℤ × SyncState :=
  match connect env st with
  | (false, st1) =>
    let n1 := collect_error st1.notifier "Exception" "Odoo models not available"
      "Odoo models unavailable during timesheet creation" "critical"
    (none, { st1 with notifier := n1 })
  | (true, st1) =>
    if st1.models_set then
      let st2 :=
        if model_type ≠ "project.task" then
          let nm := collect_error st1.notifier "Exception" "Unsupported model_type"
            ("Only project.task is supported (got " ++ model_type ++
              "), proceeding with project.task.") "normal"
          { st1 with notifier := nm }
        else st1
      let wd := match work_date with | some d => d | none => env.todayStr
      let emp_id := if pyTruthyInt employee_id then employee_id
        else env.resolveEmployee jira_author
      if pyTruthyInt emp_id then
        match env.taskRead task_id with
        | .raiseTransport =>
          let n3 := collect_error st2.notifier "ProtocolError" "transport failure"
            "Odoo connection error during timesheet creation" "critical"
          (none, { st2 with notifier := n3 })
        | .raiseOther =>
          let n3 := collect_error st2.notifier "Exception" "unexpected failure"
            "Odoo error during timesheet creation" "critical"
          (none, { st2 with notifier := n3 })
        | .notFound =>
          let n3 := collect_error st2.notifier "Exception"
            ("Odoo " ++ model_type ++ " ID not found")
            ("Odoo Task Not Found - " ++ model_type) "normal"
          (none, { st2 with notifier := n3 })
        | .found project_id =>
          match env.createBehavior with
          | .raiseTransport =>
            let n3 := collect_error st2.notifier "ProtocolError" "transport failure"
              "Odoo connection error during timesheet creation" "critical"
            (none, { st2 with notifier := n3 })
          | .raisePerm =>
            let n3 := collect_error st2.notifier "Exception" "permission denied"
              "Odoo permission error during timesheet creation" "critical"
            (none, { st2 with notifier := n3 })
          | .raiseOther =>
            let n3 := collect_error st2.notifier "Exception" "unexpected failure"
              "Odoo error during timesheet creation" "critical"
            (none, { st2 with notifier := n3 })
          | .ok =>
            let line : CreatedLine :=
              { task_id := task_id, project_id := project_id, name := description,
                unit_amount := hours, date := wd, employee_id := emp_id.getD 0,
                x_jira_worklog_id :=
                  if pyTruthyOpt tempo_worklog_id then some (tempo_worklog_id.getD "")
                  else none }
            let keys :=
              if pyTruthyOpt tempo_worklog_id then
                st2.existingKeys ++ [tempo_worklog_id.getD ""]
              else st2.existingKeys
            (some st2.nextId,
              { st2 with
                lines := st2.lines ++ [line]
                existingKeys := keys
                nextId := st2.nextId + 1 })
      else
        let n3 := collect_error st2.notifier "Exception"
          "Timesheet skipped due to missing employee_id"
          ("Timesheet skipped (no employee_id) for task " ++ model_type) "normal"
        (none, { st2 with notifier := n3 })
    else
      let n1 := collect_error st1.notifier "Exception" "Odoo models not available"
        "Odoo models unavailable during timesheet creation" "critical"
      (none, { st1 with notifier := n1 })

/-! ## Sync orchestrator (src/main.py) -/

/-- Count of positional parameters `OdooClient.create_timesheet_entry`
accepts: `task_id, hours, description, work_date, tempo_worklog_id,
model_type` — everything after the bare `*` is keyword-only
(src/odoo.py lines 122-133). -/
def create_timesheet_entry_positional_params : ℕ := 6

/-- Count of positional arguments src/main.py lines 102-104 pass:
`odoo_task_id, hours, description, date, author_name, tempo_worklog_id,
model or 'project.task'`. -/
def main_create_call_positional_args : ℕ := 7

/-- The call `create_timesheet_entry(...)` as src/main.py line 102 makes it.
Python binds arguments before running the body; seven positional arguments
against six positional parameters raise TypeError at the call site, so the
method body never runs and no state changes. -/
def create_call_from_main (st : SyncState) : Except PyExc (Option ℤ) × SyncState :=
  if main_create_call_positional_args ≤ create_timesheet_entry_positional_params then
    (.ok none, st)
  else (.error .typeError, st)

/-- The `try` body of `sync_tempo_worklogs_to_odoo` (src/main.py lines
27-112): duplicate check first (only for a truthy key), then the issue key
guard, mapping resolution, URL parsing (a falsy task id skips), the model
normalisation and hours/description/date computation, then the create call
of line 102 — which raises TypeError (see `create_call_from_main`). -/
def sync_body (env : Env) (wl : Worklog) (st : SyncState) :
    Except PyExc Bool × SyncState :=
  let dup :=
    if pyTruthyOpt wl.tempoWorklogId then
      check_existing_worklogs_by_worklog_id env wl.tempoWorklogId st
    else (false, st)
  match dup with
  | (true, st1) => (.ok false, st1)
  | (false, st1) =>
    if pyTruthyOpt wl.issueKey then
      match get_issue_with_odoo_url env (wl.issueKey.getD "") st1.notifier with
      | (.error e, n2) => (.error e, { st1 with notifier := n2 })
      | (.ok issue_data, n2) =>
        let st2 := { st1 with notifier := n2 }
        match issue_data with
        | none => (.ok false, st2)
        | some d =>
          if d.odoo_url = "" then (.ok false, st2)
          else
            match extract_odoo_task_id_from_url d.odoo_url with
            | (none, _) => (.ok false, st2)
            | (some odoo_task_id, mdl) =>
              if odoo_task_id = 0 then (.ok false, st2)
              else
                let _model := if mdl = some "helpdesk.ticket" then "helpdesk.ticket"
                  else "project.task"
                let _hours := convert_seconds_to_hours wl.timeSpentSeconds
                let _description := d.summary
                let _date := if wl.startDate ≠ "" then wl.startDate else env.todayStr
                match create_call_from_main st2 with
                | (.error e, st3) => (.error e, st3)
                | (.ok worklog_id, st3) => (.ok (pyTruthyInt worklog_id), st3)
    else (.ok false, st1)

/-- src/main.py `sync_tempo_worklogs_to_odoo` (lines 20-120): the per-item
boundary.  Its `except Exception` (lines 114-120) catches anything the body
raised, prints, and returns False — it records no ErrorRecord. -/
def sync_tempo_worklogs_to_odoo (env : Env) (wl : Worklog) (st : SyncState) :
    Bool × SyncState :=
  match sync_body env wl st with
  | (.ok b, st1) => (b, st1)
  | (.error _, st1) => (false, st1)

/-- The enrichment loop of `main` (src/main.py lines 139-145): records
enriching to None are dropped; an exception escaping
`enrich_worklogs_with_issue_key` aborts the loop (and `main` catches it). -/
def enrich_all (env : Env) :
    List Worklog → NotifierState → Except PyExc (List Worklog) × NotifierState
  | [], n => (.ok [], n)
  | wl :: rest, n =>
    match enrich_worklogs_with_issue_key env wl n with
    | (.error e, n1) => (.error e, n1)
    | (.ok r, n1) =>
      match enrich_all env rest n1 with
      | (.error e, n2) => (.error e, n2)
      | (.ok l, n2) => (.ok (match r with | some w => w :: l | none => l), n2)

/-- The processing loop of `main` (src/main.py lines 152-161): sequential,
counting True results as synced and False results as skipped. -/
def process_worklogs (env : Env) :
    List Worklog → SyncState → (ℕ × ℕ) × SyncState
  | [], st => ((0, 0), st)
  | wl :: rest, st =>
    match sync_tempo_worklogs_to_odoo env wl st with
    | (ok, st1) =>
      match process_worklogs env rest st1 with
      | ((c, s), st2) =>
        ((c + (if ok then 1 else 0), s + (if ok then 0 else 1)), st2)

/-- Result of one `main()` run (src/main.py lines 121-167). -/
inductive MainOutcome
  | runtimeError
  | noWorklogs
  | completed (sync_count skip_count : ℕ)
deriving DecidableEq, Repr

/-- src/main.py `main` (lines 121-167): fetch, early return on the empty
list, enrich, process, then print the summary counts and return.  After the
loop `main` performs no notifier call whatsoever — in particular it never
calls `send_sync_summary_email` — and its outer `except` turns any
exception that escaped fetch or enrichment into a logged runtime error. -/
def mainRun (env : Env) (st : SyncState) : MainOutcome × SyncState :=
  match get_tempo_worklogs env.tempoOutcome st.notifier with
  | (.error _, n1) => (.runtimeError, { st with notifier := n1 })
  | (.ok tempo_worklogs, n1) =>
    if tempo_worklogs.isEmpty then (.noWorklogs, { st with notifier := n1 })
    else
      match enrich_all env tempo_worklogs n1 with
      | (.error _, n2) => (.runtimeError, { st with notifier := n2 })
      | (.ok enriched, n2) =>
        match process_worklogs env enriched { st with notifier := n2 } with
        | ((c, s), st3) => (.completed c s, st3)

/-! ## Concrete demonstration data

A configured notifier, three work-log records (one whose idempotency key
is already present in the target, one resolving to no mapping, one fully
resolvable with `timeSpentSeconds = 5400`), and deterministic service
environments used to evaluate the pipeline at concrete inputs. -/

def demoNotifier : NotifierState :=
  { enabled := true, from_email := some "sync@example.com",
    password := some "hunter2", to_email := some "ops@example.com",
    sync_errors := [], emailsSent := [] }

/-- Record whose key "1001" already exists in the target database. -/
def demoWl1 : Worklog :=
  { tempoWorklogId := some "1001", issueKey := some "PROJ-1",
    timeSpentSeconds := 3600, startDate := "2026-10-10",
    authorName := "Alice Smith" }

/-- Record whose issue resolves to no mapping. -/
def demoWl2 : Worklog :=
  { tempoWorklogId := some "1002", issueKey := some "PROJ-2",
    timeSpentSeconds := 1800, startDate := "2026-10-10",
    authorName := "Bob Jones" }

/-- Fully resolvable record: 5400 seconds, issue with a direct Odoo URL. -/
def demoWl3 : Worklog :=
  { tempoWorklogId := some "1003", issueKey := some "PROJ-3",
    timeSpentSeconds := 5400, startDate := "2026-10-11",
    authorName := "Cleo Ray" }

def fieldsNoMapping : IssueFields :=
  { summary := some "Broken mapping", odoo_url := "",
    parent := none, customfield_10014 := none }

def fieldsResolvable : IssueFields :=
  { summary := some "Implement feature X",
    odoo_url := "https://odoo.example.com/web#id=7346&model=project.task",
    parent := none, customfield_10014 := none }

/-- Healthy services: Tempo returns the three records, PROJ-3 carries a
direct link, PROJ-2 has none, connection and employee resolution succeed,
the duplicate search answers normally, creates would succeed. -/
def demoEnv : Env :=
  { tempoOutcome := .resp 200 [demoWl1, demoWl2, demoWl3],
    fetchIssue := fun k =>
      if k = "PROJ-3" then .resp 200 fieldsResolvable
      else if k = "PROJ-2" then .resp 200 fieldsNoMapping
      else .resp 404 fieldsNoMapping,
    enrichLookup := fun _ => .otherExc,
    connectOutcome := .ok,
    duplicateSearch := fun _ => .normal,
    resolveEmployee := fun _ => some 42,
    taskRead := fun _ => .found (some 7),
    createBehavior := .ok,
    todayStr := "2026-10-12" }

/-- Connected client, key "1001" already synced, no lines created yet. -/
def demoState : SyncState :=
  { notifier := demoNotifier, connected := true, models_set := true,
    existingKeys := ["1001"], lines := [], nextId := 5001 }

/-- One record, and a duplicate-check search that raises a transport error
(so a normal-severity ErrorRecord is collected during the session). -/
def demoEnvSearchRaise : Env :=
  { demoEnv with
    tempoOutcome := .resp 200 [demoWl3]
    duplicateSearch := fun _ => .raiseTransport
    fetchIssue := fun _ => .resp 200 fieldsNoMapping }

/-- Tempo answers the worklogs request with HTTP 401. -/
def demoEnvTempo401 : Env := { demoEnv with tempoOutcome := .resp 401 [] }

/-- Issue service answering 404 for every key except PROJ-401, which gets
a 401. -/
def demoEnvIssueStatus : Env :=
  { demoEnv with
    fetchIssue := fun k =>
      if k = "PROJ-401" then .resp 401 fieldsNoMapping
      else .resp 404 fieldsNoMapping }

/-- Epic carrying a link of its own. -/
def epicFields : IssueFields :=
  { summary := some "Epic summary",
    odoo_url := "https://odoo.example.com/web#id=99&model=project.task",
    parent := none, customfield_10014 := none }

/-- Item with a direct link AND a parent epic that also carries a link. -/
def itemDirectFields : IssueFields :=
  { summary := some "Item direct",
    odoo_url := "https://odoo.example.com/web#id=7&model=project.task",
    parent := some "EPIC-1", customfield_10014 := none }

/-- Item with no direct link whose parent epic carries one. -/
def itemChildFields : IssueFields :=
  { summary := some "Child summary", odoo_url := "",
    parent := some "EPIC-1", customfield_10014 := none }

def demoEnvHierarchy : Env :=
  { demoEnv with
    fetchIssue := fun k =>
      if k = "EPIC-1" then .resp 200 epicFields
      else if k = "ITEM-D" then .resp 200 itemDirectFields
      else if k = "ITEM-C" then .resp 200 itemChildFields
      else .resp 404 fieldsNoMapping }

/-- Environment whose Odoo authentication fails. -/
def demoEnvAuthFail : Env := { demoEnv with connectOutcome := .authFail }

/-- Fresh process: no Odoo connection established yet. -/
def demoStateDisconnected : SyncState :=
  { demoState with connected := false, models_set := false }

/-! # Theorems -/

/-- Helper: evaluate the conversion once its integer rounding is known. -/
theorem convert_val (s k : ℤ) (h : roundHalfToEvenDiv (s * 100) 3600 = k) :
    convert_seconds_to_hours s = (k : ℚ) / 100 := by
  rw [convert_seconds_to_hours, h]

/-- C1: the end-to-end scenario (one duplicate, one unmapped, one fully
resolvable record with 5400 seconds) does NOT yield createdCount 1 and
skippedCount 2 with a 1.5-hour line.  All three records are skipped
(`completed 0 3`) and no timesheet line is created, because the create call
of src/main.py line 102 passes seven positional arguments to a method with
six positional parameters and always raises TypeError, which the per-item
handler turns into a skip. -/
theorem C1_three_record_pass :
    mainRun demoEnv demoState = (.completed 0 3, demoState) ∧
    (mainRun demoEnv demoState).2.lines = [] := by decide

/-- C2 counterexample: `convert_seconds_to_hours` is not the quarter-hour
ceiling the claim states: it maps 1 second to 0 (claim: 0.25), 3601 seconds
to 1.0 (claim: 1.25), and -3600 seconds to -1.0 (claim: 0.0). -/
theorem C2_counterexample :
    convert_seconds_to_hours 1 ≠ 1/4 ∧ convert_seconds_to_hours 3601 ≠ 5/4 ∧
    convert_seconds_to_hours (-3600) ≠ 0 := by
  refine ⟨?_, ?_, ?_⟩
  · rw [convert_val 1 0 (by decide)]; norm_num
  · rw [convert_val 3601 100 (by decide)]; norm_num
  · rw [convert_val (-3600) (-100) (by decide)]; norm_num

/-- C2 amended: the conversion is `round(seconds / 3600, 2)` — half-to-even
rounding at two decimal places, a multiple of 0.01, not a quarter-hour
ceiling; negative seconds give negative hours rather than 0.0. -/
theorem C2_amended_rounding :
    convert_seconds_to_hours 1 = 0 ∧ convert_seconds_to_hours 3600 = 1 ∧
    convert_seconds_to_hours 3601 = 1 ∧ convert_seconds_to_hours 5400 = 3/2 ∧
    convert_seconds_to_hours (-3600) = -1 ∧
    ∀ s : ℤ, ∃ k : ℤ, convert_seconds_to_hours s = (k : ℚ) / 100 := by
  refine ⟨?_, ?_, ?_, ?_, ?_, fun s => ⟨roundHalfToEvenDiv (s * 100) 3600, rfl⟩⟩
  · rw [convert_val 1 0 (by decide)]; norm_num
  · rw [convert_val 3600 100 (by decide)]; norm_num
  · rw [convert_val 3601 100 (by decide)]; norm_num
  · rw [convert_val 5400 150 (by decide)]; norm_num
  · rw [convert_val (-3600) (-100) (by decide)]; norm_num

/-- C3: a session that reaches finalization with one collected error (here
from a failing duplicate-check search, with the notifier fully configured)
ends with the error still sitting in the buffer and no email sent — `main`
never flushes the consolidated report.  The last two conjuncts show the
notifier itself behaves as the claim describes when called: with zero
errors it sends nothing, and flushing the session's final state would have
sent exactly one report. -/
theorem C3_summary_never_flushed :
    (mainRun demoEnvSearchRaise demoState).1 = .completed 0 1 ∧
    (mainRun demoEnvSearchRaise demoState).2.notifier.sync_errors ≠ [] ∧
    (mainRun demoEnvSearchRaise demoState).2.notifier.emailsSent = [] ∧
    send_sync_summary_email demoNotifier = demoNotifier ∧
    (send_sync_summary_email
      (mainRun demoEnvSearchRaise demoState).2.notifier).emailsSent.length = 1 := by
  decide

/-- C4: a 401 from Tempo does not record a critical ErrorRecord and return
the empty sequence — `get_tempo_worklogs` raises AttributeError (the
`send_error_email` method it calls does not exist), leaving the notifier
untouched, and `main` turns that into a runtime-error abort of the whole
session rather than continuing with zero items. -/
theorem C4_tempo_401_attribute_error :
    (∀ (n : NotifierState) (results : List Worklog),
      get_tempo_worklogs (.resp 401 results) n = (.error .attributeError, n)) ∧
    mainRun demoEnvTempo401 demoState = (.runtimeError, demoState) :=
  ⟨fun _ _ => rfl, by decide⟩

/-- C5: a 404 from the issue service produces zero ErrorRecords and a null
mapping (as claimed), but a 401 ALSO produces zero ErrorRecords — not the
claimed one critical record — because the `send_error_email` call of the
401 branch raises AttributeError, which the function's generic handler
swallows.  The notifier here is fully configured, so zero records is not a
configuration effect. -/
theorem C5_issue_404_401_zero_records :
    get_issue_with_odoo_url demoEnvIssueStatus "PROJ-404" demoNotifier
      = (.ok none, demoNotifier) ∧
    get_issue_with_odoo_url demoEnvIssueStatus "PROJ-401" demoNotifier
      = (.ok none, demoNotifier) := by decide

/-- C6 counterexample: a record whose processing raises (the TypeError of
the create call) is caught at the per-item boundary and the batch
continues, but no critical ErrorRecord is recorded (the state, notifier
included, is unchanged) and the item is counted as a skip — there is no
error count. -/
theorem C6_no_error_record_on_exception :
    sync_body demoEnv demoWl3 demoState = (.error .typeError, demoState) ∧
    process_worklogs demoEnv [demoWl3, demoWl2] demoState = ((0, 2), demoState) ∧
    demoState.notifier.sync_errors = [] := by decide

/-- C6 amended: any exception the per-item body raises is caught at the
orchestrator's per-item boundary, which returns False without recording
any ErrorRecord (the state is exactly the state at the throw), and the
batch continues: the item adds one to the skip count and the rest of the
batch is processed unchanged. -/
theorem C6_boundary_catches_and_continues :
    ∀ (env : Env) (wl : Worklog) (st st' : SyncState) (e : PyExc)
      (rest : List Worklog),
    sync_body env wl st = (.error e, st') →
    sync_tempo_worklogs_to_odoo env wl st = (false, st') ∧
    process_worklogs env (wl :: rest) st =
      (((process_worklogs env rest st').1.1, (process_worklogs env rest st').1.2 + 1),
        (process_worklogs env rest st').2) := by
  intro env wl st st' e rest h
  have h1 : sync_tempo_worklogs_to_odoo env wl st = (false, st') := by
    unfold sync_tempo_worklogs_to_odoo
    rw [h]
  refine ⟨h1, ?_⟩
  rcases hr : process_worklogs env rest st' with ⟨⟨c, s⟩, st2⟩
  conv_lhs => rw [process_worklogs]
  rw [h1]
  simp [hr]

/-- C6 witness: the boundary theorem applied to the concrete record whose
create call raises TypeError. -/
theorem C6_boundary_witness :
    sync_tempo_worklogs_to_odoo demoEnv demoWl3 demoState = (false, demoState) ∧
    process_worklogs demoEnv [demoWl3] demoState =
      (((process_worklogs demoEnv [] demoState).1.1,
        (process_worklogs demoEnv [] demoState).1.2 + 1),
        (process_worklogs demoEnv [] demoState).2) :=
  C6_boundary_catches_and_continues demoEnv demoWl3 demoState demoState
    .typeError [] (by decide)

/-- Helper: no per-item run ever reports a Created outcome.  Every branch
of `sync_body` yields False or raises — the only branch that could return
True sits behind the create call of src/main.py:102, which always raises
TypeError (seven positional arguments for six positional parameters). -/
theorem sync_never_reports_created (env : Env) (wl : Worklog) (st : SyncState) :
    (sync_tempo_worklogs_to_odoo env wl st).1 = false := by
  unfold sync_tempo_worklogs_to_odoo
  rcases hb : sync_body env wl st with ⟨r, st1⟩
  cases r with
  | error e => rfl
  | ok b =>
    cases b with
    | false => rfl
    | true =>
      exfalso
      unfold sync_body at hb
      simp only [create_call_from_main, main_create_call_positional_args,
        create_timesheet_entry_positional_params] at hb
      norm_num at hb
      split at hb
      · simp at hb
      · split at hb
        · split at hb <;> try simp at hb
          · split at hb <;> try simp at hb
            · split at hb <;> try simp at hb
              · split at hb <;> try simp at hb
                · split at hb <;> simp at hb
        · simp at hb

/-- Helper: consequently every pass's createdCount is 0. -/
theorem process_created_count_zero (env : Env) :
    ∀ (batch : List Worklog) (st : SyncState),
    (process_worklogs env batch st).1.1 = 0 := by
  intro batch
  induction batch with
  | nil => intro st; rfl
  | cons wl rest ih =>
    intro st
    rw [process_worklogs]
    rcases hs : sync_tempo_worklogs_to_odoo env wl st with ⟨b, st1⟩
    have hb : b = false := by
      have h0 := sync_never_reports_created env wl st
      rw [hs] at h0
      exact h0
    subst hb
    rcases hr : process_worklogs env rest st1 with ⟨⟨c, s⟩, st2⟩
    have hc : c = 0 := by
      have h0 := ih st1
      rw [hr] at h0
      exact h0
    simp [hr, hc]

/-- C7: for a record carrying a truthy idempotency key whose key already
exists in the target (working connection, answering search), the duplicate
check resolves the item before the create site is ever reached: the item
is skipped with the state — line store included — completely untouched, so
an existing key never yields a second Created outcome.  And running the
same batch twice yields createdCount 0 on the second run.  (In the code as
written the second clause holds for every run: the create call of
src/main.py:102 always raises TypeError — C1's bug — so no record is ever
Created in the first place; see `sync_never_reports_created`.) -/
theorem C7_duplicate_guard :
    (∀ (env : Env) (st : SyncState) (wl : Worklog) (key : String),
      wl.tempoWorklogId = some key → key ≠ "" →
      st.connected = true → st.models_set = true →
      env.duplicateSearch key = .normal →
      key ∈ st.existingKeys →
      sync_tempo_worklogs_to_odoo env wl st = (false, st)) ∧
    (∀ (env : Env) (batch : List Worklog) (st : SyncState),
      (process_worklogs env batch (process_worklogs env batch st).2).1.1 = 0) := by
  constructor
  · intro env st wl key hk hkey hc hms hsearch hmem
    have hchk : check_existing_worklogs_by_worklog_id env (some key) st = (true, st) := by
      unfold check_existing_worklogs_by_worklog_id connect duplicate_search_try
      rw [hc]
      simp only [Option.getD_some]
      rw [hsearch]
      simp [pyTruthyOpt, hkey, hms, hmem]
    unfold sync_tempo_worklogs_to_odoo sync_body
    rw [hk]
    have hpt : pyTruthyOpt (some key) = true := by simp [pyTruthyOpt, hkey]
    rw [hpt]
    simp only [if_true, hchk]
  · intro env batch st
    exact process_created_count_zero env batch (process_worklogs env batch st).2

/-- C7 witness: the record with pre-existing key "1001" is skipped with the
state untouched, and the demo batch run twice creates 0 on the second run. -/
theorem C7_duplicate_guard_witness :
    sync_tempo_worklogs_to_odoo demoEnv demoWl1 demoState = (false, demoState) ∧
    (process_worklogs demoEnv [demoWl1, demoWl2, demoWl3]
      (process_worklogs demoEnv [demoWl1, demoWl2, demoWl3] demoState).2).1.1 = 0 :=
  ⟨C7_duplicate_guard.1 demoEnv demoState demoWl1 "1001" rfl (by decide) rfl rfl rfl
      (by decide),
   C7_duplicate_guard.2 demoEnv [demoWl1, demoWl2, demoWl3] demoState⟩

/-- C8: an item whose own linking field is non-empty resolves to the direct
mapping — the result does not depend on the parent fields at all, so a
parent carrying its own link is ignored; an item with an empty linking
field and a resolvable parent link resolves to task_source "epic" whose
summary is the ORIGINAL item's summary (the conclusion never mentions the
parent's summary), carrying the parent's URL and key. -/
theorem C8_direct_wins_and_original_title :
    (∀ (env : Env) (issue_key : String) (n : NotifierState) (fields : IssueFields),
      env.fetchIssue issue_key = .resp 200 fields →
      fields.odoo_url ≠ "" →
      get_issue_with_odoo_url env issue_key n =
        (.ok (some { key := issue_key, odoo_url := fields.odoo_url,
                     summary := fields.summary.getD ("Work on " ++ issue_key),
                     task_source := "direct", epic_key := none,
                     description := fields.summary.getD ("Work on " ++ issue_key) }), n)) ∧
    (∀ (env : Env) (issue_key pk : String) (n : NotifierState)
        (fields pfields : IssueFields),
      env.fetchIssue issue_key = .resp 200 fields →
      fields.odoo_url = "" →
      parent_epic_of fields = some pk →
      pk ≠ "" →
      env.fetchIssue pk = .resp 200 pfields →
      pfields.odoo_url ≠ "" →
      get_issue_with_odoo_url env issue_key n =
        (.ok (some { key := issue_key, odoo_url := pfields.odoo_url,
                     summary := fields.summary.getD ("Work on " ++ issue_key),
                     task_source := "epic", epic_key := some pk,
                     description := fields.summary.getD ("Work on " ++ issue_key) }), n)) := by
  constructor
  · intro env issue_key n fields hf hurl
    unfold get_issue_with_odoo_url
    rw [hf]
    unfold issueRespCase
    norm_num
    rw [if_neg hurl]
  · intro env issue_key pk n fields pfields hf hurl hpar hpk hpf hpurl
    unfold get_issue_with_odoo_url
    rw [hf]
    unfold issueRespCase
    norm_num
    rw [hurl]
    simp only [ne_eq, not_true_eq_false, if_false]
    rw [hpar]
    simp only [hpk]
    unfold get_epic_odoo_url
    rw [hpf]
    norm_num
    simp [hpurl]

/-- C8 witness: ITEM-D carries a direct link and a linked parent — the
direct mapping wins; ITEM-C has no direct link and resolves via EPIC-1
with ITEM-C's own summary. -/
theorem C8_hierarchy_witness :
    get_issue_with_odoo_url demoEnvHierarchy "ITEM-D" demoNotifier =
      (.ok (some { key := "ITEM-D", odoo_url := itemDirectFields.odoo_url,
                   summary := itemDirectFields.summary.getD ("Work on " ++ "ITEM-D"),
                   task_source := "direct", epic_key := none,
                   description := itemDirectFields.summary.getD ("Work on " ++ "ITEM-D") }),
        demoNotifier) ∧
    get_issue_with_odoo_url demoEnvHierarchy "ITEM-C" demoNotifier =
      (.ok (some { key := "ITEM-C", odoo_url := epicFields.odoo_url,
                   summary := itemChildFields.summary.getD ("Work on " ++ "ITEM-C"),
                   task_source := "epic", epic_key := some "EPIC-1",
                   description := itemChildFields.summary.getD ("Work on " ++ "ITEM-C") }),
        demoNotifier) :=
  ⟨C8_direct_wins_and_original_title.1 demoEnvHierarchy "ITEM-D" demoNotifier
      itemDirectFields rfl (by decide),
   C8_direct_wins_and_original_title.2 demoEnvHierarchy "ITEM-C" "EPIC-1" demoNotifier
      itemChildFields epicFields rfl rfl rfl (by decide) rfl (by decide)⟩

/-- C9: the target-reference parser on the claim's three inputs, plus the
general clauses: a URL with no `id=` token yields `(None, None)`, and
whenever the id parses but no `model=` token is present the entity type
defaults to "project.task". -/
theorem C9_parse_target_ref :
    extract_odoo_task_id_from_url
      "https://odoo.example.com/web#id=7346&model=project.task"
      = (some 7346, some "project.task") ∧
    extract_odoo_task_id_from_url
      "https://odoo.example.com/web#id=12&model=helpdesk%2Eticket"
      = (some 12, some "helpdesk.ticket") ∧
    extract_odoo_task_id_from_url "no-id-here" = (none, none) ∧
    (∀ url : String, (pySplit url "id=").length ≤ 1 →
      extract_odoo_task_id_from_url url = (none, none)) ∧
    (∀ (url : String) (tid : ℤ) (mdl : Option String),
      (pySplit url "model=").length ≤ 1 →
      extract_odoo_task_id_from_url url = (some tid, mdl) →
      mdl = some "project.task") := by
  refine ⟨by decide, by decide, by decide, ?_, ?_⟩
  · intro url h
    unfold extract_odoo_task_id_from_url
    by_cases h0 : url = ""
    · simp [h0]
    · rw [if_neg h0]
      have h2 : ¬ (2 ≤ (pySplit url "id=").length) := by omega
      simp [h2]
  · intro url tid mdl hm he
    simp only [extract_odoo_task_id_from_url] at he
    split at he
    · simp at he
    · split at he
      · split at he
        · simp at he
        · have hm2 : ¬ (2 ≤ (pySplit url "model=").length) := by omega
          simp only [hm2, if_false, Prod.mk.injEq] at he
          exact he.2.symm
      · simp at he

/-- C9 witness: the general clauses applied to "no-id-here" (no id token)
and "web#id=5" (id present, model absent, defaulting to project.task). -/
theorem C9_parse_witness :
    extract_odoo_task_id_from_url "no-id-here" = (none, none) ∧
    (some "project.task" : Option String) = some "project.task" :=
  ⟨C9_parse_target_ref.2.2.2.1 "no-id-here" (by decide),
   C9_parse_target_ref.2.2.2.2 "web#id=5" 5 (some "project.task")
     (by decide) (by decide)⟩

/-- C10: the duplicate check totally evaluates to a Boolean (its model
catches every exception of its search and returns).  It answers False with
untouched state for a None or empty idempotency key, False whenever the
connection cannot be established (fresh client, failing authenticate), and
False whenever the remote search itself raises — so a failed check is
indistinguishable from "no duplicate found". -/
theorem C10_duplicate_check_never_raises :
    (∀ (env : Env) (st : SyncState),
      check_existing_worklogs_by_worklog_id env none st = (false, st)) ∧
    (∀ (env : Env) (st : SyncState),
      check_existing_worklogs_by_worklog_id env (some "") st = (false, st)) ∧
    (∀ (env : Env) (st : SyncState) (k : Option String),
      st.connected = false → env.connectOutcome ≠ .ok →
      (check_existing_worklogs_by_worklog_id env k st).1 = false) ∧
    (∀ (env : Env) (st : SyncState) (k : String),
      (env.duplicateSearch k = .raiseTransport ∨ env.duplicateSearch k = .raiseOther) →
      (check_existing_worklogs_by_worklog_id env (some k) st).1 = false) := by
  refine ⟨fun env st => rfl, fun env st => rfl, ?_, ?_⟩
  · intro env st k hc ho
    unfold check_existing_worklogs_by_worklog_id
    by_cases hk : pyTruthyOpt k
    · rw [if_pos hk]
      unfold connect
      rw [hc]
      cases hco : env.connectOutcome with
      | ok => exact absurd hco ho
      | authFail => simp
      | transportExc => simp
      | otherExc => simp
    · rw [if_neg (by simpa using hk)]
  · intro env st k hd
    unfold check_existing_worklogs_by_worklog_id
    by_cases hk : pyTruthyOpt (some k)
    · rw [if_pos hk]
      rcases hcn : connect env st with ⟨b, st1⟩
      cases b
      · simp
      · simp only []
        by_cases hms : st1.models_set
        · unfold duplicate_search_try
          simp only [Option.getD_some]
          rcases hd with hd | hd <;> rw [hd] <;> simp [hms]
        · simp [hms]
    · rw [if_neg (by simpa using hk)]

/-- C10 witness: the check at a truthy key with a failing authenticate, and
at a truthy key whose remote search raises a transport error. -/
theorem C10_duplicate_check_witness :
    (check_existing_worklogs_by_worklog_id demoEnvAuthFail (some "1003")
      demoStateDisconnected).1 = false ∧
    (check_existing_worklogs_by_worklog_id demoEnvSearchRaise (some "1003")
      demoState).1 = false :=
  ⟨C10_duplicate_check_never_raises.2.2.1 demoEnvAuthFail demoStateDisconnected
      (some "1003") rfl (by decide),
   C10_duplicate_check_never_raises.2.2.2 demoEnvSearchRaise demoState "1003"
      (Or.inl rfl)⟩

end JiraOdoo
